import Mathlib

/-!
Verification development for the Octra hardware-wallet simulator backend.

The definitions below are a shallow embedding of the Python sources:
  * `src/services/device_simulator.py` (class `DeviceSimulator`),
  * `src/services/fhe_service.py` (class `FHEService`),
  * `src/services/websocket_manager.py` (class `WebSocketManager`),
  * `src/models/device.py` and `src/models/fhe.py` (pydantic models).

Modelling conventions:
  * `datetime.utcnow()` timestamps are threaded in as a `Nat` argument `now`;
    `uuid.uuid4()` log ids are determinized by a counter field `uuidSeed`;
    `secrets.token_hex(...)` fresh randomness is threaded in as a `String`
    argument `nonce`.  No claim depends on the concrete values of these.
  * `hashlib.sha256(s).hexdigest()` is modelled by the abstract deterministic
    string function `sha256Hex`; the claims depend only on the data flow of
    the hashes, never on their numeric value.
  * Python methods that raise are modelled as functions returning the updated
    object together with `Except String r` carrying the exception message
    (state mutations performed before a `raise` are kept, as in Python).
  * A Python attribute access on a possibly-`None` value is modelled by an
    explicit `Option` match whose `none` branch returns the distinguished
    error `attrErrorNoneDeviceInfo`, modelling the `AttributeError` Python
    would raise there.
-/

/-- Decidable equality for `Except`, so that concrete runs of the modelled
operations can be checked by `decide`. -/
instance {ε α : Type} [DecidableEq ε] [DecidableEq α] : DecidableEq (Except ε α) :=
  fun x y =>
    match x, y with
    | .ok a, .ok b => decidable_of_iff (a = b) ⟨fun h => h ▸ rfl, fun h => by injection h⟩
    | .error e, .error f => decidable_of_iff (e = f) ⟨fun h => h ▸ rfl, fun h => by injection h⟩
    | .ok _, .error _ => isFalse (fun h => Except.noConfusion h)
    | .error _, .ok _ => isFalse (fun h => Except.noConfusion h)

/-- Abstract stand-in for `hashlib.sha256(s.encode()).hexdigest()`: a
deterministic function of the input string. -/
def sha256Hex (s : String) : String :=
  "sha256:" ++ s

/-- Enum `DeviceType` from `src/models/device.py`. -/
inductive DeviceType
  | ledger
  | trezor
  | octra
  deriving DecidableEq

/-- String value of a `DeviceType` (the `str, Enum` payload). -/
def DeviceType.value : DeviceType → String
  | .ledger => "ledger"
  | .trezor => "trezor"
  | .octra => "octra"

/-- Enum `DeviceScreen` from `src/models/device.py`. -/
inductive DeviceScreen
  | home
  | wallet
  | confirm
  | signed
  | error
  deriving DecidableEq

/-- String value of a `DeviceScreen`. -/
def DeviceScreen.value : DeviceScreen → String
  | .home => "home"
  | .wallet => "wallet"
  | .confirm => "confirm"
  | .signed => "signed"
  | .error => "error"

/-- Enum `LogLevel` from `src/models/device.py`. -/
inductive LogLevel
  | info
  | success
  | warning
  | error
  deriving DecidableEq

/-- Model `DeviceInfo` from `src/models/device.py`. -/
structure DeviceInfo where
  device_type : DeviceType
  name : String
  firmware_version : Option String := some "1.0.0"
  serial_number : Option String := none
  deriving DecidableEq

/-- Model `DeviceState` from `src/models/device.py`, with its pydantic
defaults.  `last_activity` timestamps are modelled as `Nat`. -/
structure DeviceState where
  is_connected : Bool := false
  is_unlocked : Bool := false
  screen : DeviceScreen := .home
  balance : String := "0.00000000"
  address : String := "octra1..."
  awaiting_confirmation : Bool := false
  last_activity : Option Nat := none
  device_info : Option DeviceInfo := none
  deriving DecidableEq

/-- Model `TransactionRequest` from `src/models/device.py`. -/
structure TransactionRequest where
  to_address : String
  amount : String
  fee : Option String := some "0.001"
  memo : Option String := none
  gas_limit : Option Int := some 21000
  deriving DecidableEq

/-- Model `SignatureResult` from `src/models/device.py`. -/
structure SignatureResult where
  signature : String
  transaction_hash : String
  signed_at : Nat
  device_type : DeviceType
  deriving DecidableEq

/-- Model `LogEntry` from `src/models/device.py`.  The `uuid.uuid4()` id is
determinized to a `Nat` counter value and the timestamp to a `Nat`; the
opaque `context` dict is omitted (no claim inspects it). -/
structure LogEntry where
  id : Nat
  timestamp : Nat
  level : LogLevel
  message : String
  device_type : Option DeviceType := none
  deriving DecidableEq

/-- Model `AddressInfo` from `src/models/device.py`. -/
structure AddressInfo where
  address : String
  derivation_path : String
  public_key : String
  address_type : String := "octra"
  deriving DecidableEq

/-- State of the `DeviceSimulator` class (`src/services/device_simulator.py`
constructor): the mutable fields `state`, `logs`, `pending_transaction` and
`pin_attempts`, plus the uuid determinization counter. -/
structure DeviceSimulator where
  state : DeviceState := {}
  logs : List LogEntry := []
  pending_transaction : Option TransactionRequest := none
  pin_attempts : Nat := 0
  uuidSeed : Nat := 0
  deriving DecidableEq

/-- Constant `self.default_pin` from the `DeviceSimulator` constructor. -/
def default_pin : String := "1234"

/-- Constant `self.max_pin_attempts` from the `DeviceSimulator` constructor. -/
def max_pin_attempts : Nat := 3

/-- Lookup table `self.mock_addresses` (total over the enum, so the `.get`
default is unreachable). -/
def mock_addresses : DeviceType → String
  | .ledger => "octra1qpzry9x8gf2tvdw0s3jn54khce6mua7l5ta2m8c"
  | .trezor => "octra1abc123def456ghi789jkl012mno345pqr678stu"
  | .octra => "octra1xyz789abc123def456ghi789jkl012mno345pqr"

/-- Lookup table `self.mock_balances`. -/
def mock_balances : DeviceType → String
  | .ledger => "125.80000000"
  | .trezor => "89.45123456"
  | .octra => "203.12345678"

/-- The list-level core of `DeviceSimulator._add_log` (lines 47-51): append
the new entry, then keep only the last 100 entries. -/
def appendLog (logs : List LogEntry) (e : LogEntry) : List LogEntry :=
  let logs := logs ++ [e]
  if logs.length > 100 then logs.drop (logs.length - 100) else logs

/-- Model `DeviceSimulator._add_log`: build the `LogEntry` (uuid determinized
by `uuidSeed`, timestamp by `now`) and append it with the 100-entry cap. -/
def addLog (sim : DeviceSimulator) (now : Nat) (level : LogLevel) (message : String) :
    DeviceSimulator :=
  let entry : LogEntry :=
    { id := sim.uuidSeed
      timestamp := now
      level := level
      message := message
      device_type := sim.state.device_info.map DeviceInfo.device_type }
  { sim with logs := appendLog sim.logs entry, uuidSeed := sim.uuidSeed + 1 }

/-- Response dict of `connect_device`. -/
structure ConnectResp where
  connected : Bool
  device : DeviceInfo
  screen : String
  deriving DecidableEq

/-- Model `DeviceSimulator.connect_device`.  The `asyncio.sleep` delay has no
state effect and is dropped. -/
def connect_device (sim : DeviceSimulator) (device_info : DeviceInfo) (now : Nat) :
    DeviceSimulator × Except String ConnectResp :=
  if sim.state.is_connected then
    (sim, .error "Device already connected")
  else
    let sim := { sim with
      state := { sim.state with
        is_connected := true
        device_info := some device_info
        last_activity := some now
        screen := .home }
      pin_attempts := 0 }
    let sim := addLog sim now .success (device_info.name ++ " connected successfully")
    (sim, .ok { connected := true, device := device_info, screen := sim.state.screen.value })

/-- Response dict of `disconnect_device`. -/
structure DisconnectResp where
  disconnected : Bool
  deriving DecidableEq

/-- Model `DeviceSimulator.disconnect_device`: resets `state` to the defaults
and clears `pending_transaction`; note that `pin_attempts` is left unchanged,
exactly as in the source. -/
def disconnect_device (sim : DeviceSimulator) (now : Nat) :
    DeviceSimulator × Except String DisconnectResp :=
  if !sim.state.is_connected then
    (sim, .error "No device connected")
  else
    let device_name := match sim.state.device_info with
      | some di => di.name
      | none => "Unknown device"
    let sim := { sim with state := {}, pending_transaction := none }
    let sim := addLog sim now .warning (device_name ++ " disconnected")
    (sim, .ok { disconnected := true })

/-- The three dict shapes `unlock_device` can return. -/
inductive UnlockResp
  | alreadyUnlocked
  | unlocked (address balance screen : String)
  | invalidPin (attempts_remaining : Int)
  deriving DecidableEq

/-- Model `DeviceSimulator.unlock_device`.  On the exhausted-attempts path the
mutations performed before the `raise` (incremented `pin_attempts`, forced
`is_connected := false`, the two log entries) are kept, as in Python. -/
def unlock_device (sim : DeviceSimulator) (pin : String) (now : Nat) :
    DeviceSimulator × Except String UnlockResp :=
  if !sim.state.is_connected then
    (sim, .error "Device not connected")
  else if sim.state.is_unlocked then
    (sim, .ok .alreadyUnlocked)
  else if pin = default_pin then
    let state := { sim.state with
      is_unlocked := true
      screen := DeviceScreen.wallet
      last_activity := some now }
    let state := match state.device_info with
      | some di => { state with
          address := mock_addresses di.device_type
          balance := mock_balances di.device_type }
      | none => state
    let sim := { sim with state := state, pin_attempts := 0 }
    let sim := addLog sim now .success "Device unlocked successfully"
    (sim, .ok (.unlocked sim.state.address sim.state.balance sim.state.screen.value))
  else
    let sim := { sim with pin_attempts := sim.pin_attempts + 1 }
    let remaining : Int := (max_pin_attempts : Int) - (sim.pin_attempts : Int)
    let sim := addLog sim now .error
      ("Invalid PIN. " ++ toString remaining ++ " attempts remaining")
    if remaining ≤ 0 then
      let sim := { sim with state := { sim.state with is_connected := false } }
      let sim := addLog sim now .error "Device locked due to too many invalid PIN attempts"
      (sim, .error "Device locked due to too many invalid PIN attempts")
    else
      (sim, .ok (.invalidPin remaining))

/-- Response dict of `sign_transaction`. -/
structure SignResp where
  signing_requested : Bool
  transaction : TransactionRequest
  awaiting_confirmation : Bool
  screen : String
  deriving DecidableEq

/-- Model `DeviceSimulator.sign_transaction` (guards checked in source
order: connected, unlocked, no pending confirmation). -/
def sign_transaction (sim : DeviceSimulator) (transaction : TransactionRequest) (now : Nat) :
    DeviceSimulator × Except String SignResp :=
  if !sim.state.is_connected then
    (sim, .error "Device not connected")
  else if !sim.state.is_unlocked then
    (sim, .error "Device not unlocked")
  else if sim.state.awaiting_confirmation then
    (sim, .error "Another transaction is already pending confirmation")
  else
    let sim := { sim with
      pending_transaction := some transaction
      state := { sim.state with
        awaiting_confirmation := true
        screen := .confirm
        last_activity := some now } }
    let sim := addLog sim now .info
      ("Transaction signing requested: " ++ transaction.amount ++ " OCTRA to "
        ++ transaction.to_address.take 10 ++ "...")
    (sim, .ok { signing_requested := true, transaction := transaction,
                awaiting_confirmation := true, screen := sim.state.screen.value })

/-- The two dict shapes `confirm_transaction` can return. -/
inductive ConfirmResp
  | confirmed (signature_result : SignatureResult) (screen : String)
  | rejected (screen : String)
  deriving DecidableEq

/-- Screen field of a `ConfirmResp`. -/
def ConfirmResp.screen : ConfirmResp → String
  | .confirmed _ s => s
  | .rejected s => s

/-- Distinguished error modelling the `AttributeError` Python raises when
`self.state.device_info` is `None` and `.device_type` is accessed on it. -/
def attrErrorNoneDeviceInfo : String :=
  "AttributeError: NoneType object has no attribute device_type"

/-- Model `DeviceSimulator.confirm_transaction`.  In the confirmed branch the
source sets `screen = SIGNED`, logs, then after an inline
`await asyncio.sleep(2.0)` sets `screen = WALLET` and only then builds the
response, whose screen field therefore reads the already-reverted WALLET
screen.  `nonce` models `secrets.token_hex(16)`. -/
def confirm_transaction (sim : DeviceSimulator) (confirmed : Bool) (now : Nat)
    (nonce : String) : DeviceSimulator × Except String ConfirmResp :=
  match sim.pending_transaction, sim.state.awaiting_confirmation with
  | some tx, true =>
    if confirmed then
      let tx_data := tx.to_address ++ tx.amount ++ toString now
      let signature := sha256Hex tx_data
      let tx_hash := sha256Hex (signature ++ nonce)
      match sim.state.device_info with
      | none => (sim, .error attrErrorNoneDeviceInfo)
      | some di =>
        let result : SignatureResult :=
          { signature := signature
            transaction_hash := tx_hash
            signed_at := now
            device_type := di.device_type }
        let sim := { sim with state := { sim.state with screen := .signed } }
        let sim := addLog sim now .success
          ("Transaction signed successfully: " ++ tx_hash.take 16 ++ "...")
        -- inline revert after `await asyncio.sleep(2.0)` in the source
        let sim := { sim with state := { sim.state with screen := .wallet } }
        let response := ConfirmResp.confirmed result sim.state.screen.value
        let sim := { sim with
          pending_transaction := none
          state := { sim.state with
            awaiting_confirmation := false
            last_activity := some now } }
        (sim, .ok response)
    else
      let sim := addLog sim now .warning "Transaction rejected by user"
      let sim := { sim with state := { sim.state with screen := .wallet } }
      let response := ConfirmResp.rejected sim.state.screen.value
      let sim := { sim with
        pending_transaction := none
        state := { sim.state with
          awaiting_confirmation := false
          last_activity := some now } }
      (sim, .ok response)
  | _, _ => (sim, .error "No transaction pending confirmation")

/-- Model `DeviceSimulator.generate_address`.  `nonce` models
`secrets.token_hex(8)`. -/
def generate_address (sim : DeviceSimulator) (derivation_path : String) (now : Nat)
    (nonce : String) : DeviceSimulator × Except String AddressInfo :=
  if !(sim.state.is_connected && sim.state.is_unlocked) then
    (sim, .error "Device must be connected and unlocked")
  else
    match sim.state.device_info with
    | none => (sim, .error attrErrorNoneDeviceInfo)
    | some di =>
      let seed := di.device_type.value ++ derivation_path ++ nonce
      let address_hash := sha256Hex seed
      let address := "octra1" ++ address_hash.take 32
      let public_key := sha256Hex ("pubkey" ++ seed)
      let sim := addLog sim now .info ("Generated new address: " ++ address.take 16 ++ "...")
      (sim, .ok { address := address, derivation_path := derivation_path,
                  public_key := public_key })

/-- Response dict of `get_status`. -/
structure StatusResp where
  device_state : DeviceState
  pending_transaction : Option TransactionRequest
  pin_attempts_remaining : Int
  deriving DecidableEq

/-- Model `DeviceSimulator.get_status`. -/
def get_status (sim : DeviceSimulator) : StatusResp :=
  { device_state := sim.state
    pending_transaction := sim.pending_transaction
    pin_attempts_remaining := (max_pin_attempts : Int) - (sim.pin_attempts : Int) }

/-- Model `DeviceSimulator.get_logs`: `self.logs[-limit:] if limit > 0 else
self.logs` (Python negative-index slicing written with `List.drop`). -/
def get_logs (sim : DeviceSimulator) (limit : Int) : List LogEntry :=
  if limit > 0 then sim.logs.drop (sim.logs.length - limit.toNat) else sim.logs

/-- Model `DeviceSimulator.reset`. -/
def simReset (sim : DeviceSimulator) (now : Nat) : DeviceSimulator :=
  let sim := { sim with state := {}, pending_transaction := none, pin_attempts := 0 }
  addLog sim now .info "Device simulator reset"

/-- Model `DeviceSimulator.clear_logs`. -/
def clear_logs (sim : DeviceSimulator) (now : Nat) : DeviceSimulator :=
  let sim := { sim with logs := [] }
  addLog sim now .info "Activity logs cleared"

/-- States of the simulator reachable from the freshly constructed
`DeviceSimulator` by any sequence of the session operations (including the
post-exception states of operations that raise). -/
inductive Reachable : DeviceSimulator → Prop
  | init : Reachable {}
  | connect (s : DeviceSimulator) (di : DeviceInfo) (now : Nat) :
      Reachable s → Reachable (connect_device s di now).1
  | disconnect (s : DeviceSimulator) (now : Nat) :
      Reachable s → Reachable (disconnect_device s now).1
  | unlock (s : DeviceSimulator) (pin : String) (now : Nat) :
      Reachable s → Reachable (unlock_device s pin now).1
  | sign (s : DeviceSimulator) (tx : TransactionRequest) (now : Nat) :
      Reachable s → Reachable (sign_transaction s tx now).1
  | confirm (s : DeviceSimulator) (c : Bool) (now : Nat) (nonce : String) :
      Reachable s → Reachable (confirm_transaction s c now nonce).1
  | genAddr (s : DeviceSimulator) (path : String) (now : Nat) (nonce : String) :
      Reachable s → Reachable (generate_address s path now nonce).1
  | doReset (s : DeviceSimulator) (now : Nat) :
      Reachable s → Reachable (simReset s now)

/-- Enum `FHEOperation` from `src/models/fhe.py`. -/
inductive FHEOperation
  | add
  | multiply
  | compare
  | fheMax
  | average
  | vote
  deriving DecidableEq

/-- String value of an `FHEOperation`. -/
def FHEOperation.value : FHEOperation → String
  | .add => "add"
  | .multiply => "multiply"
  | .compare => "compare"
  | .fheMax => "max"
  | .average => "average"
  | .vote => "vote"

/-- Enum `FHEDataType` from `src/models/fhe.py`. -/
inductive FHEDataType
  | integer
  | decimal
  | boolean
  deriving DecidableEq

/-- Model `EncryptedValue` from `src/models/fhe.py`
(noise level modelled as `Nat`). -/
structure EncryptedValue where
  encrypted_data : String
  data_type : FHEDataType
  can_compute : Bool := true
  noise_level : Nat := 1
  deriving DecidableEq

/-- Model `FHEComputeRequest` from `src/models/fhe.py` (the unused opaque
`parameters` dict is omitted). -/
structure FHEComputeRequest where
  operation : FHEOperation
  operands : List EncryptedValue
  deriving DecidableEq

/-- Model `FHEComputeResult` from `src/models/fhe.py`.  The wall-clock
`computation_time` float is omitted (real time is outside the model). -/
structure FHEComputeResult where
  operation : FHEOperation
  result : EncryptedValue
  gas_used : Nat
  success : Bool
  error_message : Option String := none
  deriving DecidableEq

/-- Table `self.operation_costs` from the `FHEService` constructor (total
over the enum, so the `.get` default 100 is unreachable). -/
def operation_costs : FHEOperation → Nat
  | .add => 100
  | .multiply => 500
  | .compare => 300
  | .fheMax => 400
  | .average => 600
  | .vote => 200

/-- Python `max([op.noise_level for op in operands]) if operands else 1`
from `FHEService._mock_compute`. -/
def maxNoiseOrOne (operands : List EncryptedValue) : Nat :=
  match operands.map EncryptedValue.noise_level with
  | [] => 1
  | n :: ns => ns.foldl Nat.max n

/-- Model `FHEService._mock_compute`.  Both uses of the operand list are
guarded on emptiness in the source, so the function is total. -/
def mock_compute (operation : FHEOperation) (operands : List EncryptedValue) :
    EncryptedValue :=
  let combined_data := String.join (operands.map EncryptedValue.encrypted_data)
  let operation_hash := sha256Hex (operation.value ++ "_" ++ combined_data)
  let result_type := match operands with
    | [] => FHEDataType.integer
    | op :: _ => op.data_type
  let max_noise := maxNoiseOrOne operands
  let new_noise := min (max_noise + 1) 10
  { encrypted_data := operation_hash
    data_type := result_type
    can_compute := decide (new_noise < 8)
    noise_level := new_noise }

/-- Model `FHEService.perform_computation`.  The body of the `try` block
cannot raise (`_mock_compute` is total and the cost/delay lookups have
defaults), so the `except` branch producing `success=False` is dead code and
the function always returns a successful result. -/
def perform_computation (request : FHEComputeRequest) : FHEComputeResult :=
  let result_encrypted := mock_compute request.operation request.operands
  { operation := request.operation
    result := result_encrypted
    gas_used := operation_costs request.operation
    success := true }

/-- A WebSocket handle as seen by `WebSocketManager`: its identity plus
whether `send_text` on it fails (models a dead connection). -/
structure WSConn where
  client_id : Nat
  send_fails : Bool
  deriving DecidableEq

/-- State of the `WebSocketManager` class (`src/services/websocket_manager.py`):
the subscriber list and the per-connection info map (modelled as an
association list keyed by the handle, holding the stored client id). -/
structure WebSocketManager where
  active_connections : List WSConn := []
  connection_info : List (WSConn × Nat) := []
  deriving DecidableEq

/-- Model `WebSocketManager.disconnect`: remove the handle from the
subscriber list if present and drop its info entry (idempotent). -/
def wsDisconnect (m : WebSocketManager) (ws : WSConn) : WebSocketManager :=
  if ws ∈ m.active_connections then
    { active_connections := m.active_connections.erase ws
      connection_info := m.connection_info.filter (fun p => p.1 ≠ ws) }
  else m

/-- The send loop of `WebSocketManager.broadcast`: walk the current
subscriber list in order, collecting the successful deliveries and the
handles whose send failed (the `try/except` around `send_text`). -/
def broadcastLoop (conns : List WSConn) (message_str : String) :
    List (WSConn × String) × List WSConn :=
  conns.foldl
    (fun acc c =>
      if c.send_fails then (acc.1, acc.2 ++ [c])
      else (acc.1 ++ [(c, message_str)], acc.2))
    ([], [])

/-- Model `WebSocketManager.broadcast`: no-op on an empty subscriber list;
otherwise the message (already serialized once, modelled as a `String`)
is pushed to every subscriber in order, send failures are caught, and the
failed handles are disconnected in the same pass.  Returns the updated
manager and the list of successful deliveries. -/
def wsBroadcast (m : WebSocketManager) (message_str : String) :
    WebSocketManager × List (WSConn × String) :=
  if m.active_connections = [] then (m, [])
  else
    let (delivered, disconnected) := broadcastLoop m.active_connections message_str
    (disconnected.foldl wsDisconnect m, delivered)

@[simp]
theorem addLog_state (sim : DeviceSimulator) (now : Nat) (lvl : LogLevel) (msg : String) :
    (addLog sim now lvl msg).state = sim.state := rfl

@[simp]
theorem addLog_pending (sim : DeviceSimulator) (now : Nat) (lvl : LogLevel) (msg : String) :
    (addLog sim now lvl msg).pending_transaction = sim.pending_transaction := rfl

@[simp]
theorem addLog_pin_attempts (sim : DeviceSimulator) (now : Nat) (lvl : LogLevel) (msg : String) :
    (addLog sim now lvl msg).pin_attempts = sim.pin_attempts := rfl

/-- The session invariant that the claims C1 and C10 are about, strengthened
just enough to be inductive over the operations. -/
def SessionInv (sim : DeviceSimulator) : Prop :=
  (sim.state.is_unlocked = true → sim.state.is_connected = true) ∧
  (sim.state.awaiting_confirmation = true → sim.pending_transaction.isSome = true) ∧
  (sim.state.is_connected = true → sim.state.device_info.isSome = true) ∧
  (sim.state.awaiting_confirmation = true → sim.state.is_unlocked = true)

theorem sessionInv_init : SessionInv {} := by
  refine ⟨?_, ?_, ?_, ?_⟩ <;> intro h <;> simp_all

theorem sessionInv_connect (s : DeviceSimulator) (di : DeviceInfo) (now : Nat)
    (h : SessionInv s) : SessionInv (connect_device s di now).1 := by
  obtain ⟨h1, h2, h3, h4⟩ := h
  unfold connect_device
  by_cases hc : s.state.is_connected = true
  · simp [hc]; exact ⟨h1, h2, h3, h4⟩
  · simp only [hc, Bool.false_eq_true, if_false, SessionInv, addLog_state, addLog_pending]
    refine ⟨?_, ?_, ?_, ?_⟩ <;> intro hx <;> simp_all

theorem sessionInv_disconnect (s : DeviceSimulator) (now : Nat)
    (h : SessionInv s) : SessionInv (disconnect_device s now).1 := by
  obtain ⟨h1, h2, h3, h4⟩ := h
  unfold disconnect_device
  by_cases hc : s.state.is_connected = true
  · simp only [hc, Bool.not_true, Bool.false_eq_true, if_false, SessionInv,
      addLog_state, addLog_pending]
    refine ⟨?_, ?_, ?_, ?_⟩ <;> intro hx <;> simp_all
  · simp only [Bool.not_eq_true] at hc
    simp [hc]; exact ⟨h1, h2, h3, h4⟩

theorem sessionInv_unlock (s : DeviceSimulator) (pin : String) (now : Nat)
    (h : SessionInv s) : SessionInv (unlock_device s pin now).1 := by
  obtain ⟨h1, h2, h3, h4⟩ := h
  unfold unlock_device
  by_cases hc : s.state.is_connected = true
  case neg =>
    simp only [Bool.not_eq_true] at hc
    simp [hc]; exact ⟨h1, h2, h3, h4⟩
  by_cases hu : s.state.is_unlocked = true
  · simp [hc, hu]; exact ⟨h1, h2, h3, h4⟩
  · simp only [hc, hu, Bool.not_true, Bool.false_eq_true, if_false]
    have hnaw : s.state.awaiting_confirmation = false := by
      cases haw : s.state.awaiting_confirmation with
      | false => rfl
      | true => exact absurd (h4 haw) (by simp [hu])
    by_cases hp : pin = default_pin
    · simp only [hp, if_true]
      cases hdi : s.state.device_info with
      | none =>
        simp only [hdi, SessionInv, addLog_state, addLog_pending]
        refine ⟨?_, ?_, ?_, ?_⟩ <;> intro hx <;> simp_all
      | some di =>
        simp only [hdi, SessionInv, addLog_state, addLog_pending]
        refine ⟨?_, ?_, ?_, ?_⟩ <;> intro hx <;> simp_all
    · simp only [hp, if_false]
      by_cases hr : (max_pin_attempts : Int) - ((s.pin_attempts + 1 : Nat) : Int) ≤ 0
      · simp only [addLog_pin_attempts, hr, if_true, SessionInv, addLog_state, addLog_pending]
        refine ⟨?_, ?_, ?_, ?_⟩ <;> intro hx <;> simp_all
      · simp only [addLog_pin_attempts, hr, if_false, SessionInv, addLog_state, addLog_pending]
        refine ⟨?_, ?_, ?_, ?_⟩ <;> intro hx <;> simp_all

theorem sessionInv_sign (s : DeviceSimulator) (tx : TransactionRequest) (now : Nat)
    (h : SessionInv s) : SessionInv (sign_transaction s tx now).1 := by
  obtain ⟨h1, h2, h3, h4⟩ := h
  unfold sign_transaction
  by_cases hc : s.state.is_connected = true
  case neg =>
    simp only [Bool.not_eq_true] at hc
    simp [hc]; exact ⟨h1, h2, h3, h4⟩
  by_cases hu : s.state.is_unlocked = true
  case neg =>
    simp only [Bool.not_eq_true] at hu
    simp [hc, hu]; exact ⟨h1, h2, h3, h4⟩
  by_cases haw : s.state.awaiting_confirmation = true
  · simp [hc, hu, haw]; exact ⟨h1, h2, h3, h4⟩
  · simp only [hc, hu, haw, Bool.not_true, Bool.false_eq_true, if_false, if_true,
      SessionInv, addLog_state, addLog_pending]
    refine ⟨?_, ?_, ?_, ?_⟩ <;> intro hx <;> simp_all

theorem sessionInv_confirm (s : DeviceSimulator) (c : Bool) (now : Nat) (nonce : String)
    (h : SessionInv s) : SessionInv (confirm_transaction s c now nonce).1 := by
  obtain ⟨h1, h2, h3, h4⟩ := h
  unfold confirm_transaction
  cases hp : s.pending_transaction with
  | none => cases haw : s.state.awaiting_confirmation <;> simp_all [SessionInv]
  | some tx =>
    cases haw : s.state.awaiting_confirmation with
    | false => simp_all [SessionInv]
    | true =>
      cases c with
      | true =>
        cases hdi : s.state.device_info with
        | none => simp_all [SessionInv]
        | some di =>
          simp only [hdi, SessionInv, addLog_state, addLog_pending]
          refine ⟨?_, ?_, ?_, ?_⟩ <;> intro hx <;> simp_all
      | false =>
        simp only [SessionInv, addLog_state, addLog_pending]
        refine ⟨?_, ?_, ?_, ?_⟩ <;> intro hx <;> simp_all

theorem sessionInv_genAddr (s : DeviceSimulator) (path : String) (now : Nat) (nonce : String)
    (h : SessionInv s) : SessionInv (generate_address s path now nonce).1 := by
  obtain ⟨h1, h2, h3, h4⟩ := h
  unfold generate_address
  by_cases hg : (s.state.is_connected && s.state.is_unlocked) = true
  · simp only [hg, Bool.not_true, Bool.false_eq_true, if_false]
    cases hdi : s.state.device_info with
    | none => simp; exact ⟨h1, h2, h3, h4⟩
    | some di =>
      simp only [SessionInv, addLog_state, addLog_pending]
      refine ⟨?_, ?_, ?_, ?_⟩ <;> intro hx <;> simp_all
  · simp only [Bool.not_eq_true] at hg
    simp [hg]; exact ⟨h1, h2, h3, h4⟩

theorem sessionInv_reset (s : DeviceSimulator) (now : Nat)
    (_h : SessionInv s) : SessionInv (simReset s now) := by
  unfold simReset
  simp only [SessionInv, addLog_state, addLog_pending]
  refine ⟨?_, ?_, ?_, ?_⟩ <;> intro hx <;> simp_all

/-- Every reachable simulator state satisfies the session invariant. -/
theorem reachable_sessionInv (s : DeviceSimulator) (h : Reachable s) : SessionInv s := by
  induction h with
  | init => exact sessionInv_init
  | connect s di now _ ih => exact sessionInv_connect s di now ih
  | disconnect s now _ ih => exact sessionInv_disconnect s now ih
  | unlock s pin now _ ih => exact sessionInv_unlock s pin now ih
  | sign s tx now _ ih => exact sessionInv_sign s tx now ih
  | confirm s c now nonce _ ih => exact sessionInv_confirm s c now nonce ih
  | genAddr s path now nonce _ ih => exact sessionInv_genAddr s path now nonce ih
  | doReset s now _ ih => exact sessionInv_reset s now ih

/-- Concrete fixture: a Ledger device description. -/
def diLedger : DeviceInfo := { device_type := .ledger, name := "Ledger Nano S" }

/-- Concrete fixture: a transaction request. -/
def txDemo : TransactionRequest := { to_address := "octra1abcdefxyz", amount := "10.5" }

/-- Fixture state: freshly connected simulator. -/
def simConn : DeviceSimulator := (connect_device {} diLedger 0).1

/-- Fixture state: connected, then one wrong PIN attempt. -/
def simWrong1 : DeviceSimulator := (unlock_device simConn "0000" 1).1

/-- Fixture state: connected and unlocked with the demo PIN. -/
def simUnlocked : DeviceSimulator := (unlock_device simConn "1234" 1).1

/-- Fixture state: unlocked with a transaction pending confirmation. -/
def simPending : DeviceSimulator := (sign_transaction simUnlocked txDemo 2).1

theorem reachable_simConn : Reachable simConn :=
  Reachable.connect {} diLedger 0 Reachable.init

theorem reachable_simWrong1 : Reachable simWrong1 :=
  Reachable.unlock simConn "0000" 1 reachable_simConn

theorem reachable_simUnlocked : Reachable simUnlocked :=
  Reachable.unlock simConn "1234" 1 reachable_simConn

theorem reachable_simPending : Reachable simPending :=
  Reachable.sign simUnlocked txDemo 2 reachable_simUnlocked

/-- C1: for every sequence of session operations (connect_device,
disconnect_device, unlock_device, sign_transaction, confirm_transaction,
generate_address, reset) starting from the initial state, after each
operation the session satisfies: `is_unlocked` implies `is_connected`, and
`awaiting_confirmation` implies `pending_transaction` is not `None`. -/
theorem claim_C1_session_invariants (s : DeviceSimulator) (h : Reachable s) :
    (s.state.is_unlocked = true → s.state.is_connected = true) ∧
    (s.state.awaiting_confirmation = true → s.pending_transaction ≠ none) := by
  obtain ⟨h1, h2, _, _⟩ := reachable_sessionInv s h
  refine ⟨h1, fun haw => ?_⟩
  have := h2 haw
  cases hp : s.pending_transaction with
  | none => rw [hp] at this; simp at this
  | some tx => simp

/-- Witness for C1 at the concrete reachable state `simPending`. -/
theorem claim_C1_session_invariants_witness :
    (simPending.state.is_unlocked = true → simPending.state.is_connected = true) ∧
    (simPending.state.awaiting_confirmation = true →
      simPending.pending_transaction ≠ none) :=
  claim_C1_session_invariants simPending reachable_simPending

/-- C10: the invariant `is_connected` implies `device_info` is not `None` is
preserved by every session operation from the initial state; consequently the
unguarded `device_info` dereferences in `confirm_transaction` and
`generate_address` never hit `None` (the modelled `AttributeError` is
unreachable) on reachable states. -/
theorem claim_C10_device_info_present (s : DeviceSimulator) (h : Reachable s) :
    (s.state.is_connected = true → s.state.device_info ≠ none) ∧
    (∀ c now nonce, (confirm_transaction s c now nonce).2 ≠
      Except.error attrErrorNoneDeviceInfo) ∧
    (∀ path now nonce, (generate_address s path now nonce).2 ≠
      Except.error attrErrorNoneDeviceInfo) := by
  obtain ⟨h1, h2, h3, h4⟩ := reachable_sessionInv s h
  have hinfo : s.state.is_connected = true → s.state.device_info ≠ none := by
    intro hc hn
    have := h3 hc
    rw [hn] at this
    simp at this
  refine ⟨hinfo, ?_, ?_⟩
  · intro c now nonce
    unfold confirm_transaction
    cases hp : s.pending_transaction with
    | none =>
      cases haw : s.state.awaiting_confirmation <;> simp [attrErrorNoneDeviceInfo]
    | some tx =>
      cases haw : s.state.awaiting_confirmation with
      | false => simp [attrErrorNoneDeviceInfo]
      | true =>
        cases c with
        | true =>
          cases hdi : s.state.device_info with
          | none => exact absurd hdi (hinfo (h1 (h4 haw)))
          | some di => simp
        | false => simp
  · intro path now nonce
    unfold generate_address
    by_cases hg : (s.state.is_connected && s.state.is_unlocked) = true
    · simp only [hg, Bool.not_true, Bool.false_eq_true, if_false]
      cases hdi : s.state.device_info with
      | none =>
        have hc : s.state.is_connected = true := by
          cases hcc : s.state.is_connected with
          | true => rfl
          | false => rw [hcc] at hg; simp at hg
        exact absurd hdi (hinfo hc)
      | some di => simp
    · simp only [Bool.not_eq_true] at hg
      simp [hg, attrErrorNoneDeviceInfo]

/-- Witness for C10 at the concrete reachable state `simPending`. -/
theorem claim_C10_device_info_present_witness :
    (simPending.state.is_connected = true → simPending.state.device_info ≠ none) ∧
    (∀ c now nonce, (confirm_transaction simPending c now nonce).2 ≠
      Except.error attrErrorNoneDeviceInfo) ∧
    (∀ path now nonce, (generate_address simPending path now nonce).2 ≠
      Except.error attrErrorNoneDeviceInfo) :=
  claim_C10_device_info_present simPending reachable_simPending

/-- C2 counterexample: the reachable connected state `simWrong1` (connect,
then one wrong PIN attempt) refutes the claim that `disconnect_device`
followed by `get_status` always reports `pin_attempts_remaining = 3`:
`disconnect_device` does not reset `pin_attempts`, so the status after the
disconnect still shows 2 remaining attempts. -/
theorem claim_C2_counterexample :
    Reachable simWrong1 ∧ simWrong1.state.is_connected = true ∧
    (get_status (disconnect_device simWrong1 2).1).pin_attempts_remaining = 2 ∧
    (get_status (disconnect_device simWrong1 2).1).pin_attempts_remaining ≠ 3 :=
  ⟨reachable_simWrong1, by decide, by decide, by decide⟩

/-- C2 amended: for every connected session state, `disconnect_device`
followed by `get_status` yields the default `DeviceState` values and a null
`pending_transaction`, but `pin_attempts_remaining` equals
`max_pin_attempts - pin_attempts` for the `pin_attempts` value held before
the disconnect (which `disconnect_device` leaves unchanged); it equals 3
exactly when no failed PIN attempt is outstanding. -/
theorem claim_C2_disconnect_status (s : DeviceSimulator) (now : Nat)
    (hc : s.state.is_connected = true) :
    (get_status (disconnect_device s now).1).device_state = {} ∧
    (get_status (disconnect_device s now).1).pending_transaction = none ∧
    (get_status (disconnect_device s now).1).pin_attempts_remaining =
      (max_pin_attempts : Int) - (s.pin_attempts : Int) := by
  unfold disconnect_device get_status
  cases hdi : s.state.device_info <;> simp [hc, hdi]

/-- Witness for the amended C2 at the concrete state `simWrong1`. -/
theorem claim_C2_disconnect_status_witness :
    (get_status (disconnect_device simWrong1 2).1).device_state = {} ∧
    (get_status (disconnect_device simWrong1 2).1).pending_transaction = none ∧
    (get_status (disconnect_device simWrong1 2).1).pin_attempts_remaining =
      (max_pin_attempts : Int) - (simWrong1.pin_attempts : Int) :=
  claim_C2_disconnect_status simWrong1 2 (by decide)

/-- C9: if the session is connected and already unlocked, `unlock_device`
with any PIN returns the `already_unlocked` response and leaves the whole
simulator (state, logs, pending transaction, pin attempts) unchanged. -/
theorem claim_C9_unlock_idempotent (s : DeviceSimulator) (pin : String) (now : Nat)
    (hc : s.state.is_connected = true) (hu : s.state.is_unlocked = true) :
    unlock_device s pin now = (s, Except.ok UnlockResp.alreadyUnlocked) := by
  unfold unlock_device
  simp [hc, hu]

/-- Witness for C9 at the concrete unlocked state `simUnlocked` with an
arbitrary wrong PIN. -/
theorem claim_C9_unlock_idempotent_witness :
    unlock_device simUnlocked "9999" 7 = (simUnlocked, Except.ok UnlockResp.alreadyUnlocked) :=
  claim_C9_unlock_idempotent simUnlocked "9999" 7 (by decide) (by decide)

theorem unlock_wrong_lt (s : DeviceSimulator) (pin : String) (now : Nat)
    (hc : s.state.is_connected = true) (hu : s.state.is_unlocked = false)
    (hp : pin ≠ default_pin) (hlt : s.pin_attempts < 2) :
    (unlock_device s pin now).1.state = s.state ∧
    (unlock_device s pin now).1.pin_attempts = s.pin_attempts + 1 ∧
    (unlock_device s pin now).2 =
      Except.ok (.invalidPin ((max_pin_attempts : Int) - ((s.pin_attempts + 1 : Nat) : Int))) := by
  unfold unlock_device
  have hcond : ¬ ((max_pin_attempts : Int) ≤ (s.pin_attempts : Int) + 1) := by
    simp only [max_pin_attempts]
    omega
  simp [hc, hu, hp, hcond]

theorem unlock_wrong_locked (s : DeviceSimulator) (pin : String) (now : Nat)
    (hc : s.state.is_connected = true) (hu : s.state.is_unlocked = false)
    (hp : pin ≠ default_pin) (hge : 2 ≤ s.pin_attempts) :
    (unlock_device s pin now).1.state.is_connected = false ∧
    (unlock_device s pin now).2 =
      Except.error "Device locked due to too many invalid PIN attempts" := by
  unfold unlock_device
  have hcond : (max_pin_attempts : Int) ≤ (s.pin_attempts : Int) + 1 := by
    simp only [max_pin_attempts]
    omega
  simp [hc, hu, hp, hcond]

theorem unlock_not_connected (s : DeviceSimulator) (pin : String) (now : Nat)
    (hc : s.state.is_connected = false) :
    unlock_device s pin now = (s, Except.error "Device not connected") := by
  unfold unlock_device
  simp [hc]

theorem connect_succeeds (s : DeviceSimulator) (di : DeviceInfo) (now : Nat)
    (hc : s.state.is_connected = false) :
    (connect_device s di now).1.pin_attempts = 0 ∧
    (∃ r, (connect_device s di now).2 = Except.ok r) := by
  unfold connect_device
  simp [hc]

/-- C5: in a freshly connected, locked session, three consecutive wrong-PIN
unlock calls return 2 then 1 remaining attempts, the third forcibly sets
`is_connected = false` and fails with the device-locked error; afterwards
every unlock call fails with the not-connected error and leaves the state
unchanged, until `connect_device` succeeds again and resets `pin_attempts`
to 0. -/
theorem claim_C5_pin_exhaustion (s : DeviceSimulator) (p1 p2 p3 : String)
    (n1 n2 n3 : Nat)
    (hc : s.state.is_connected = true) (hu : s.state.is_unlocked = false)
    (ha : s.pin_attempts = 0)
    (h1 : p1 ≠ default_pin) (h2 : p2 ≠ default_pin) (h3 : p3 ≠ default_pin) :
    (unlock_device s p1 n1).2 = Except.ok (.invalidPin 2) ∧
    (unlock_device (unlock_device s p1 n1).1 p2 n2).2 = Except.ok (.invalidPin 1) ∧
    (unlock_device (unlock_device (unlock_device s p1 n1).1 p2 n2).1 p3 n3).2 =
      Except.error "Device locked due to too many invalid PIN attempts" ∧
    (unlock_device (unlock_device (unlock_device s p1 n1).1 p2 n2).1 p3 n3).1.state.is_connected
      = false ∧
    (∀ pin now,
      unlock_device
        (unlock_device (unlock_device (unlock_device s p1 n1).1 p2 n2).1 p3 n3).1 pin now =
      ((unlock_device (unlock_device (unlock_device s p1 n1).1 p2 n2).1 p3 n3).1,
        Except.error "Device not connected")) ∧
    (∀ di now,
      (connect_device
        (unlock_device (unlock_device (unlock_device s p1 n1).1 p2 n2).1 p3 n3).1 di now).1.pin_attempts = 0 ∧
      ∃ r, (connect_device
        (unlock_device (unlock_device (unlock_device s p1 n1).1 p2 n2).1 p3 n3).1 di now).2 =
        Except.ok r) := by
  obtain ⟨e1state, e1pin, e1resp⟩ := unlock_wrong_lt s p1 n1 hc hu h1 (by omega)
  set s1 := (unlock_device s p1 n1).1 with hs1
  have hc1 : s1.state.is_connected = true := by rw [e1state]; exact hc
  have hu1 : s1.state.is_unlocked = false := by rw [e1state]; exact hu
  have ha1 : s1.pin_attempts = 1 := by rw [e1pin, ha]
  obtain ⟨e2state, e2pin, e2resp⟩ := unlock_wrong_lt s1 p2 n2 hc1 hu1 h2 (by omega)
  set s2 := (unlock_device s1 p2 n2).1 with hs2
  have hc2 : s2.state.is_connected = true := by rw [e2state]; exact hc1
  have hu2 : s2.state.is_unlocked = false := by rw [e2state]; exact hu1
  have ha2 : s2.pin_attempts = 2 := by rw [e2pin, ha1]
  obtain ⟨e3conn, e3resp⟩ := unlock_wrong_locked s2 p3 n3 hc2 hu2 h3 (by omega)
  set s3 := (unlock_device s2 p3 n3).1 with hs3
  refine ⟨?_, ?_, e3resp, e3conn, ?_, ?_⟩
  · rw [e1resp, ha]; norm_num [max_pin_attempts]
  · rw [e2resp, ha1]; norm_num [max_pin_attempts]
  · intro pin now
    exact unlock_not_connected s3 pin now e3conn
  · intro di now
    exact connect_succeeds s3 di now e3conn

/-- Witness for C5 at the freshly connected state `simConn` with the wrong
PIN "0000" used three times. -/
theorem claim_C5_pin_exhaustion_witness :
    (unlock_device simConn "0000" 1).2 = Except.ok (.invalidPin 2) ∧
    (unlock_device (unlock_device simConn "0000" 1).1 "0000" 2).2 =
      Except.ok (.invalidPin 1) ∧
    (unlock_device (unlock_device (unlock_device simConn "0000" 1).1 "0000" 2).1 "0000" 3).2 =
      Except.error "Device locked due to too many invalid PIN attempts" ∧
    (unlock_device (unlock_device (unlock_device simConn "0000" 1).1 "0000" 2).1
      "0000" 3).1.state.is_connected = false ∧
    (∀ pin now,
      unlock_device
        (unlock_device (unlock_device (unlock_device simConn "0000" 1).1 "0000" 2).1
          "0000" 3).1 pin now =
      ((unlock_device (unlock_device (unlock_device simConn "0000" 1).1 "0000" 2).1
          "0000" 3).1,
        Except.error "Device not connected")) ∧
    (∀ di now,
      (connect_device
        (unlock_device (unlock_device (unlock_device simConn "0000" 1).1 "0000" 2).1
          "0000" 3).1 di now).1.pin_attempts = 0 ∧
      ∃ r, (connect_device
        (unlock_device (unlock_device (unlock_device simConn "0000" 1).1 "0000" 2).1
          "0000" 3).1 di now).2 = Except.ok r) :=
  claim_C5_pin_exhaustion simConn "0000" "0000" "0000" 1 2 3
    (by decide) (by decide) (by decide) (by decide) (by decide) (by decide)

/-- C3 (code evaluation at the failing input): from the reachable state
`simPending` (connected, unlocked, transaction awaiting confirmation),
`confirm_transaction true` does produce a response carrying the signature
and the transaction hash, but the screen field of the response — read after
the inline post-delay revert in the source — is "wallet", not "signed", and
the state screen observed by any later `get_status` is already `wallet`.
The claim (and the sibling implementation in `src/simple_main.py`, which
schedules the revert as a detached task) expects the response to carry
"signed" with the revert deferred past the response. -/
theorem claim_C3_inline_revert :
    (confirm_transaction simPending true 3 "feedface").2 =
      Except.ok (ConfirmResp.confirmed
        { signature := sha256Hex (txDemo.to_address ++ txDemo.amount ++ toString (3 : Nat))
          transaction_hash :=
            sha256Hex (sha256Hex (txDemo.to_address ++ txDemo.amount ++ toString (3 : Nat))
              ++ "feedface")
          signed_at := 3
          device_type := DeviceType.ledger }
        DeviceScreen.wallet.value) ∧
    (confirm_transaction simPending true 3 "feedface").1.state.screen = DeviceScreen.wallet ∧
    DeviceScreen.wallet.value ≠ DeviceScreen.signed.value := by
  refine ⟨by decide, by decide, by decide⟩

/-- C4 counterexample: `perform_computation` on an empty operand list does
NOT fail — both uses of the operand list in `_mock_compute` are guarded on
emptiness — so the result has `success = true` and no error message,
refuting the claim that it returns `success = false` with an error. -/
theorem claim_C4_counterexample :
    (perform_computation { operation := FHEOperation.add, operands := [] }).success = true ∧
    (perform_computation { operation := FHEOperation.add, operands := [] }).error_message
      = none := by
  refine ⟨by decide, by decide⟩

/-- C4 amended: for every operation kind, `perform_computation` with an
empty operand list succeeds, returning `success = true`, no error message,
and an `EncryptedValue` derived from the operation name alone with data type
integer, noise level `min (1+1) 10 = 2` and `can_compute = true`. -/
theorem claim_C4_empty_operands (op : FHEOperation) :
    perform_computation { operation := op, operands := [] } =
      { operation := op
        result :=
          { encrypted_data := sha256Hex (op.value ++ "_")
            data_type := FHEDataType.integer
            can_compute := true
            noise_level := 2 }
        gas_used := operation_costs op
        success := true } := by
  cases op <;> rfl

theorem foldl_appendLog_nil (es : List LogEntry) :
    es.foldl appendLog [] = es.drop (es.length - 100) := by
  induction es using List.reverseRecOn with
  | nil => simp
  | append_singleton l e ih =>
    rw [List.foldl_append, List.foldl_cons, List.foldl_nil, ih]
    unfold appendLog
    have hlen2 : (l ++ [e]).length = l.length + 1 := by simp
    by_cases hlen : l.length < 100
    · have h1 : l.length - 100 = 0 := by omega
      rw [h1, List.drop_zero]
      have hc : ¬ ((l ++ [e]).length > 100) := by
        rw [hlen2]
        omega
      rw [if_neg hc]
      have h2 : (l ++ [e]).length - 100 = 0 := by
        rw [hlen2]
        omega
      rw [h2, List.drop_zero]
    · have hdlen : (List.drop (l.length - 100) l).length = 100 := by
        rw [List.length_drop]
        omega
      have hc : (List.drop (l.length - 100) l ++ [e]).length > 100 := by
        simp only [List.length_append, hdlen, List.length_cons, List.length_nil]
        omega
      rw [if_pos hc]
      have hsub : (List.drop (l.length - 100) l ++ [e]).length - 100 = 1 := by
        simp only [List.length_append, hdlen, List.length_cons, List.length_nil]
      rw [hsub,
        List.drop_append_of_le_length (by rw [hdlen]; omega : 1 ≤ (List.drop (l.length - 100) l).length),
        List.drop_drop]
      have hR : (l ++ [e]).length - 100 ≤ l.length := by
        rw [hlen2]
        omega
      rw [List.drop_append_of_le_length hR]
      have hidx : l.length - 100 + 1 = (l ++ [e]).length - 100 := by
        rw [hlen2]
        omega
      rw [hidx]

/-- C6: the activity log never holds more than 100 entries after any sequence
of appends; after appending 150 entries to an empty log, `get_logs 1000`
returns exactly the last 100 appended entries in insertion order; and for
any limit ≤ 0, `get_logs` returns the full buffer. -/
theorem claim_C6_log_ring_buffer :
    (∀ es : List LogEntry, (es.foldl appendLog []).length ≤ 100) ∧
    (∀ es : List LogEntry, es.length = 150 →
      get_logs { logs := es.foldl appendLog [] } 1000 = es.drop 50) ∧
    (∀ (sim : DeviceSimulator) (limit : Int), limit ≤ 0 → get_logs sim limit = sim.logs) := by
  refine ⟨?_, ?_, ?_⟩
  · intro es
    rw [foldl_appendLog_nil, List.length_drop]
    omega
  · intro es h150
    rw [foldl_appendLog_nil, h150]
    unfold get_logs
    norm_num
    rw [h150]
    norm_num
  · intro sim limit hlim
    unfold get_logs
    have : ¬ (limit > 0) := by omega
    simp [this]

/-- Concrete list of 150 distinct log entries for the C6 witness. -/
def entries150 : List LogEntry :=
  (List.range 150).map (fun i =>
    { id := i, timestamp := 0, level := LogLevel.info, message := "entry" })

/-- Witness for C6: the three properties evaluated at 150 concrete entries
and at a concrete simulator state with a non-positive limit. -/
theorem claim_C6_log_ring_buffer_witness :
    ((entries150.foldl appendLog []).length ≤ 100) ∧
    (get_logs { logs := entries150.foldl appendLog [] } 1000 = entries150.drop 50) ∧
    (get_logs simConn (-1) = simConn.logs) :=
  ⟨claim_C6_log_ring_buffer.1 entries150,
   claim_C6_log_ring_buffer.2.1 entries150 (by simp [entries150]),
   claim_C6_log_ring_buffer.2.2 simConn (-1) (by norm_num)⟩

theorem foldl_max_ge_init (ns : List Nat) (a : Nat) : a ≤ ns.foldl Nat.max a := by
  induction ns generalizing a with
  | nil => exact le_refl a
  | cons n ns ih =>
    calc a ≤ Nat.max a n := Nat.le_max_left a n
    _ ≤ (ns.foldl Nat.max (Nat.max a n)) := ih (Nat.max a n)

theorem foldl_max_ge_mem (ns : List Nat) (a : Nat) :
    ∀ x ∈ ns, x ≤ ns.foldl Nat.max a := by
  induction ns generalizing a with
  | nil => intro x hx; simp at hx
  | cons n ns ih =>
    intro x hx
    rcases List.mem_cons.mp hx with hx | hx
    · subst hx
      calc x ≤ Nat.max a x := Nat.le_max_right a x
      _ ≤ ns.foldl Nat.max (Nat.max a x) := foldl_max_ge_init ns (Nat.max a x)
    · exact ih (Nat.max a n) x hx

theorem foldl_max_eq_init_or_mem (ns : List Nat) (a : Nat) :
    ns.foldl Nat.max a = a ∨ ns.foldl Nat.max a ∈ ns := by
  induction ns generalizing a with
  | nil => exact Or.inl rfl
  | cons n ns ih =>
    rcases ih (Nat.max a n) with h | h
    · rcases Nat.le_total a n with hle | hle
      · right
        rw [List.foldl_cons, h]
        rw [List.mem_cons]
        exact Or.inl (Nat.max_eq_right hle)
      · left
        rw [List.foldl_cons, h]
        exact Nat.max_eq_left hle
    · right
      rw [List.foldl_cons]
      exact List.mem_cons_of_mem n h

theorem maxNoiseOrOne_isUB (operands : List EncryptedValue) :
    ∀ r ∈ operands, r.noise_level ≤ maxNoiseOrOne operands := by
  cases operands with
  | nil => intro r hr; simp at hr
  | cons op ops =>
    intro r hr
    unfold maxNoiseOrOne
    simp only [List.map_cons]
    rcases List.mem_cons.mp hr with hr | hr
    · subst hr
      exact foldl_max_ge_init (ops.map EncryptedValue.noise_level) r.noise_level
    · exact foldl_max_ge_mem (ops.map EncryptedValue.noise_level) op.noise_level
        r.noise_level (List.mem_map_of_mem EncryptedValue.noise_level hr)

theorem maxNoiseOrOne_mem (operands : List EncryptedValue) (h : operands ≠ []) :
    ∃ r ∈ operands, maxNoiseOrOne operands = r.noise_level := by
  cases operands with
  | nil => exact absurd rfl h
  | cons op ops =>
    unfold maxNoiseOrOne
    simp only [List.map_cons]
    rcases foldl_max_eq_init_or_mem (ops.map EncryptedValue.noise_level) op.noise_level with
      he | he
    · exact ⟨op, List.mem_cons_self op ops, he⟩
    · obtain ⟨r, hr, hrn⟩ := List.mem_map.mp he
      exact ⟨r, List.mem_cons_of_mem op hr, hrn.symm⟩

theorem mock_compute_noise (op : FHEOperation) (operands : List EncryptedValue) :
    (mock_compute op operands).noise_level = min (maxNoiseOrOne operands + 1) 10 := rfl

theorem mock_compute_can (op : FHEOperation) (operands : List EncryptedValue) :
    (mock_compute op operands).can_compute =
      decide (min (maxNoiseOrOne operands + 1) 10 < 8) := rfl

/-- C7: for every non-empty operand list, the `_mock_compute` result has
noise level `min (max of operand noise levels + 1) 10` (stated extensionally:
it is an upper bound of `min (r+1) 10` over the operands and is attained by
one of them) and `can_compute` iff the noise level is below 8; the noise
level never exceeds 10, and feeding any result back as an operand whose
noise level is within the 1..10 model range can only keep the noise level
the same or increase it (monotonic non-decrease). -/
theorem claim_C7_noise_model (op : FHEOperation) (operands : List EncryptedValue)
    (h : operands ≠ []) :
    (∀ r ∈ operands, min (r.noise_level + 1) 10 ≤ (mock_compute op operands).noise_level) ∧
    (∃ r ∈ operands, (mock_compute op operands).noise_level = min (r.noise_level + 1) 10) ∧
    ((mock_compute op operands).can_compute = true ↔
      (mock_compute op operands).noise_level < 8) ∧
    (mock_compute op operands).noise_level ≤ 10 ∧
    (∀ r ∈ operands, r.noise_level ≤ 10 →
      r.noise_level ≤ (mock_compute op operands).noise_level) := by
  rw [mock_compute_noise, mock_compute_can]
  refine ⟨?_, ?_, ?_, ?_, ?_⟩
  · intro r hr
    exact min_le_min (Nat.add_le_add_right (maxNoiseOrOne_isUB operands r hr) 1)
      (le_refl 10)
  · obtain ⟨r, hr, he⟩ := maxNoiseOrOne_mem operands h
    exact ⟨r, hr, by rw [he]⟩
  · exact decide_eq_true_iff
  · exact min_le_right _ _
  · intro r hr h10
    exact le_min (le_trans (maxNoiseOrOne_isUB operands r hr) (Nat.le_succ _)) h10

/-- Concrete encrypted operands for the C7 witness. -/
def evLow : EncryptedValue :=
  { encrypted_data := "aaa", data_type := .integer, can_compute := true, noise_level := 3 }

/-- Concrete encrypted operand with high noise for the C7 witness. -/
def evHigh : EncryptedValue :=
  { encrypted_data := "bbb", data_type := .integer, can_compute := true, noise_level := 7 }

/-- Witness for C7 at a concrete two-operand list (noise levels 3 and 7):
the result noise is 8 and computation on it is flagged off. -/
theorem claim_C7_noise_model_witness :
    (∀ r ∈ [evLow, evHigh],
      min (r.noise_level + 1) 10 ≤ (mock_compute .add [evLow, evHigh]).noise_level) ∧
    (∃ r ∈ [evLow, evHigh],
      (mock_compute .add [evLow, evHigh]).noise_level = min (r.noise_level + 1) 10) ∧
    ((mock_compute .add [evLow, evHigh]).can_compute = true ↔
      (mock_compute .add [evLow, evHigh]).noise_level < 8) ∧
    (mock_compute .add [evLow, evHigh]).noise_level ≤ 10 ∧
    (∀ r ∈ [evLow, evHigh], r.noise_level ≤ 10 →
      r.noise_level ≤ (mock_compute .add [evLow, evHigh]).noise_level) :=
  claim_C7_noise_model .add [evLow, evHigh] (by decide)

theorem foldl_erase_eq_filter {α : Type} [DecidableEq α] (ds : List α) (l : List α)
    (h : l.Nodup) :
    ds.foldl (fun acc d => acc.erase d) l = l.filter (fun c => decide (c ∉ ds)) := by
  induction ds generalizing l with
  | nil => simp
  | cons d ds ih =>
    rw [List.foldl_cons, ih (l.erase d) (h.erase d), List.Nodup.erase_eq_filter h,
      List.filter_filter]
    apply List.filter_congr
    intro c _
    by_cases h1 : c = d <;> by_cases h2 : c ∈ ds <;> simp [h1, h2]

theorem broadcastLoop_general (conns : List WSConn) (msg : String)
    (d : List (WSConn × String)) (x : List WSConn) :
    conns.foldl
      (fun acc c =>
        if c.send_fails then (acc.1, acc.2 ++ [c])
        else (acc.1 ++ [(c, msg)], acc.2))
      (d, x) =
    (d ++ (conns.filter (fun c => !c.send_fails)).map (fun c => (c, msg)),
     x ++ conns.filter (fun c => c.send_fails)) := by
  induction conns generalizing d x with
  | nil => simp
  | cons c cs ih =>
    rw [List.foldl_cons]
    cases hf : c.send_fails with
    | true =>
      simp only [if_true]
      rw [ih]
      simp [List.filter_cons, hf, List.append_assoc]
    | false =>
      simp only [Bool.false_eq_true, if_false]
      rw [ih]
      simp [List.filter_cons, hf, List.append_assoc]

theorem broadcastLoop_eq (conns : List WSConn) (msg : String) :
    broadcastLoop conns msg =
      ((conns.filter (fun c => !c.send_fails)).map (fun c => (c, msg)),
       conns.filter (fun c => c.send_fails)) := by
  unfold broadcastLoop
  rw [broadcastLoop_general]
  simp

theorem wsDisconnect_active (m : WebSocketManager) (ws : WSConn) :
    (wsDisconnect m ws).active_connections = m.active_connections.erase ws := by
  unfold wsDisconnect
  split
  · rfl
  · next h => exact (List.erase_of_not_mem h).symm

theorem foldl_wsDisconnect_active (ds : List WSConn) (m : WebSocketManager) :
    (ds.foldl wsDisconnect m).active_connections =
      ds.foldl (fun acc d => acc.erase d) m.active_connections := by
  induction ds generalizing m with
  | nil => rfl
  | cons d ds ih =>
    rw [List.foldl_cons, List.foldl_cons, ih, wsDisconnect_active]

/-- C8: `broadcast` with zero subscribers is a no-op (and, being a total
function of the model, raises nothing); with any duplicate-free subscriber
list it delivers the message to exactly the non-failing subscribers in
order, and after the pass the subscriber list consists of exactly the
non-failing subscribers — precisely the failing ones were removed, and a
failing subscriber never prevents delivery to the rest. -/
theorem claim_C8_broadcast_delivery (m : WebSocketManager) (msg : String)
    (hnd : m.active_connections.Nodup) :
    (m.active_connections = [] → wsBroadcast m msg = (m, [])) ∧
    ((wsBroadcast m msg).2 =
      (m.active_connections.filter (fun c => !c.send_fails)).map (fun c => (c, msg))) ∧
    ((wsBroadcast m msg).1.active_connections =
      m.active_connections.filter (fun c => !c.send_fails)) := by
  refine ⟨fun he => by unfold wsBroadcast; simp [he], ?_, ?_⟩
  · unfold wsBroadcast
    by_cases he : m.active_connections = []
    · simp [he]
    · rw [if_neg he, broadcastLoop_eq]
  · unfold wsBroadcast
    by_cases he : m.active_connections = []
    · simp [he]
    · rw [if_neg he, broadcastLoop_eq]
      show ((m.active_connections.filter (fun c => c.send_fails)).foldl wsDisconnect
        m).active_connections = _
      rw [foldl_wsDisconnect_active, foldl_erase_eq_filter _ _ hnd]
      apply List.filter_congr
      intro c hc
      by_cases hf : c.send_fails = true <;> simp [hf, List.mem_filter, hc]

/-- Live subscriber fixture for the C8 witness. -/
def wsAlive1 : WSConn := { client_id := 1, send_fails := false }

/-- Dead subscriber fixture for the C8 witness. -/
def wsDead : WSConn := { client_id := 2, send_fails := true }

/-- Second live subscriber fixture for the C8 witness. -/
def wsAlive2 : WSConn := { client_id := 3, send_fails := false }

/-- Manager fixture with three subscribers, one of them dead. -/
def mgr3 : WebSocketManager :=
  { active_connections := [wsAlive1, wsDead, wsAlive2]
    connection_info := [(wsAlive1, 1), (wsDead, 2), (wsAlive2, 3)] }

/-- Witness for C8 at the three-subscriber manager with one dead
connection. -/
theorem claim_C8_broadcast_delivery_witness :
    (mgr3.active_connections = [] → wsBroadcast mgr3 "hello" = (mgr3, [])) ∧
    ((wsBroadcast mgr3 "hello").2 =
      (mgr3.active_connections.filter (fun c => !c.send_fails)).map (fun c => (c, "hello"))) ∧
    ((wsBroadcast mgr3 "hello").1.active_connections =
      mgr3.active_connections.filter (fun c => !c.send_fails)) :=
  claim_C8_broadcast_delivery mgr3 "hello" (by decide)
